import Mathlib

/-!
# SelfForge backend — verification of the spec's core claims

Shallow embedding of the SelfForge backend's core operations
(`src/backend/app.py`, `src/backend/utils/productivity.py`,
`src/backend/models.py`) over an explicit relational store.

Modelling conventions:
* Timestamps (Python `datetime`) are whole seconds as `Int`; `timedelta.days`
  is floor division by `secondsPerDay`; `datetime.date()` truncates a
  timestamp to midnight of its day.
* SQLAlchemy rows become structure values; a table is a `List`; `query(...)
  .filter(...).first()` is `List.find?`; an ORM in-place row mutation followed
  by `commit` replaces the first matching element of the table.
* Python floats are modelled by exact rationals `ℚ` except where a claim turns
  on double-precision rounding: `float64Round` below models IEEE-754 binary64
  round-to-nearest-even and is used to evaluate the progress formula
  `int((completed_milestones / total_milestones) * 100)` at concrete inputs.
* Python truthiness tests on optional numbers (`if l.sleep_hours`) are `false`
  exactly on `none` and on a present zero.
* `HTTPException(status, detail)` aborts the transaction: the operation
  returns `ApiResult.err status detail` and the caller keeps the old store.
* Presentation-only columns (descriptions, locations, attendee lists, created
  timestamps that no embedded operation reads) are omitted from the rows.
-/

namespace SelfForge

/-- Timestamps: whole seconds, as in `datetime.utcnow().timestamp()`. -/
abbrev Timestamp := Int

/-- Seconds per day, for `timedelta.days` and `datetime.date()`. -/
def secondsPerDay : Int := 86400

/-- `datetime.date()`: truncate a timestamp to midnight of its day. -/
def dateFloor (t : Timestamp) : Timestamp :=
  (Int.fdiv t secondsPerDay) * secondsPerDay

/-- Row of `goals` (`models.py`, class `Goal`).  `user_id` is the nullable
owner column; `progress` defaults to 0 and `status` to `"not-started"`. -/
structure Goal where
  id : String
  user_id : Option Nat
  title : String
  category : String
  priority : String
  status : String
  target_date : Timestamp
  progress : Nat
  updated_at : Timestamp
deriving Repr, DecidableEq

/-- Row of `goal_milestones` (`models.py`, class `GoalMilestone`). -/
structure GoalMilestone where
  id : String
  user_id : Option Nat
  goal_id : String
  title : String
  completed : Bool
  completed_at : Option Timestamp
  updated_at : Timestamp
deriving Repr, DecidableEq

/-- Row of `calendar_items` (`models.py`, class `CalendarItem`). -/
structure CalendarItem where
  id : String
  user_id : Option Nat
  title : String
  start_datetime : Timestamp
  end_datetime : Timestamp
  category : String
  item_type : String
  completed : Bool
  created_at : Timestamp
deriving Repr, DecidableEq

/-- Row of `timer_sessions` (`models.py`, class `TimerSession`).
`duration` is a non-nullable integer column. -/
structure TimerSession where
  id : String
  user_id : Option Nat
  title : String
  category : String
  start_time : Timestamp
  duration : Int
  completed : Bool
deriving Repr, DecidableEq

/-- Row of `daily_logs` (`models.py`, class `DailyLog`).  `sleep_hours` and
`mood` are nullable columns. -/
structure DailyLog where
  id : Nat
  user_id : Option Nat
  log_date : Timestamp
  sleep_hours : Option ℚ
  study_hours : Option ℚ
  screen_time_hours : Option ℚ
  gym_completed : Bool
  mood : Option Int
deriving Repr, DecidableEq

/-- The relational store: one list per table used by the embedded operations. -/
structure Store where
  goals : List Goal
  goal_milestones : List GoalMilestone
  calendar_items : List CalendarItem
  timer_sessions : List TimerSession
  daily_logs : List DailyLog
deriving Repr, DecidableEq

/-- Result of a request handler: `ok` carries the committed store, `err`
carries the `HTTPException` status code and detail string (the transaction is
aborted, so the caller keeps the old store). -/
inductive ApiResult (α : Type) where
  | ok : α → ApiResult α
  | err : Nat → String → ApiResult α
deriving Repr, DecidableEq

/-- ORM in-place mutation: apply `f` to the first element satisfying `p`,
leave everything else unchanged. -/
def updateFirst (p : α → Bool) (f : α → α) : List α → List α
  | [] => []
  | a :: as => if p a then f a :: as else a :: updateFirst p f as

/-- The `Goal.milestones` relationship: all milestone rows whose `goal_id`
references the goal (no owner filter — the relationship joins on the foreign
key only). -/
def milestonesOf (db : Store) (gid : String) : List GoalMilestone :=
  db.goal_milestones.filter (fun m => m.goal_id == gid)

/-- Python truthiness of an optional rational (`if l.sleep_hours`): `false`
on `None` and on `0.0`. -/
def qTruthy : Option ℚ → Bool
  | none => false
  | some x => x != 0

/-- Python truthiness of an optional integer (`if l.mood`). -/
def zTruthy : Option Int → Bool
  | none => false
  | some x => x != 0

/-! ## Progress Engine: `update_milestone` (`app.py` lines 468-516) -/

/-- `PUT /goals/{goal_id}/milestones/{milestone_id}` request body
(`schemas/goals.py`, class `GoalMilestoneUpdate`): a field is `none` when it
was absent from the request (`dict(exclude_unset=True)` drops it). -/
structure GoalMilestoneUpdate where
  title : Option String
  completed : Option Bool
deriving Repr, DecidableEq

/-- The field-by-field `setattr` loop of `update_milestone` (`app.py` lines
488-494): a present `title` is assigned; a present `completed` first adjusts
`completed_at` (set to now on a false-to-true edge, cleared whenever the new
value is false) and is then assigned. -/
def applyMilestoneFields (mu : GoalMilestoneUpdate) (now : Timestamp)
    (m : GoalMilestone) : GoalMilestone :=
  let m1 := match mu.title with
    | none => m
    | some t => { m with title := t }
  match mu.completed with
  | none => m1
  | some v =>
    let m2 := if v && !m1.completed then { m1 with completed_at := some now }
      else if !v then { m1 with completed_at := none }
      else m1
    { m2 with completed := v }

/-- Milestone-row predicate of the query at `app.py` lines 476-483:
`GoalMilestone.id == milestone_id, GoalMilestone.goal_id == goal_id`
(no owner condition appears in the source). -/
def milestoneKey (gid mid : String) (m : GoalMilestone) : Bool :=
  m.id == mid && m.goal_id == gid

/-- Goal-row predicate of the query at `app.py` line 499:
`Goal.id == goal_id` (no owner condition appears in the source). -/
def goalKey (gid : String) (g : Goal) : Bool :=
  g.id == gid

/-- The complete mutation of the matched milestone row: the field loop, then
`milestone.updated_at = datetime.utcnow()` (`app.py` lines 488-496). -/
def milestoneMutation (mu : GoalMilestoneUpdate) (now : Timestamp)
    (m : GoalMilestone) : GoalMilestone :=
  let m3 := applyMilestoneFields mu now m
  { m3 with updated_at := now }

/-- First phase of `update_milestone`: mutate the matched milestone row in
place. -/
def milestonePhase (gid mid : String) (mu : GoalMilestoneUpdate)
    (now : Timestamp) (db : Store) : Store :=
  { db with goal_milestones :=
      (updateFirst (milestoneKey gid mid) (milestoneMutation mu now)
        db.goal_milestones) }

/-- The progress recomputation of `app.py` lines 501-507, in exact integer
arithmetic: `int((completed_milestones / total_milestones) * 100)` becomes
`(100 * completed) / total` with `Nat` floor division.  (The source evaluates
the expression in IEEE-754 doubles; `pyProgressFloat` below models that
evaluation exactly and exhibits where it deviates from this floor.) -/
def goalProgress (completedCount totalCount : Nat) : Nat :=
  if totalCount > 0 then (100 * completedCount) / totalCount else 0

/-- The goal recomputation of `app.py` lines 500-513: recompute `progress`
from the goal's milestones, then derive `status` (100 gives `"completed"`,
positive gives `"in-progress"`, zero leaves the status untouched). -/
def recomputeGoal (db : Store) (g : Goal) : Goal :=
  let ms := milestonesOf db g.id
  let completed_milestones := (ms.filter (fun m => m.completed)).length
  let total_milestones := ms.length
  let progress := goalProgress completed_milestones total_milestones
  let status :=
    if progress = 100 then "completed"
    else if progress > 0 then "in-progress"
    else g.status
  { g with progress := progress, status := status }

/-- Second phase of `update_milestone` (`app.py` lines 499-513): look the goal
up by id; if present, recompute its progress and status against the already
mutated milestone table; if absent (`if goal:` fails) commit without touching
any goal. -/
def goalPhase (gid : String) (db1 : Store) : Store :=
  match db1.goals.find? (goalKey gid) with
  | none => db1
  | some _ =>
      { db1 with goals :=
          updateFirst (goalKey gid) (fun g => recomputeGoal db1 g) db1.goals }

/-- `update_milestone` (`app.py` lines 468-516): find the milestone by
`(milestone_id, goal_id)`; absent gives 404 `"Milestone not found"` before any
mutation; otherwise apply the field updates, stamp `updated_at`, recompute the
parent goal, and commit.  The handler receives no owner: nothing in the query
or the mutation depends on any `user_id`. -/
def update_milestone (gid mid : String) (mu : GoalMilestoneUpdate)
    (now : Timestamp) (db : Store) : ApiResult Store :=
  match db.goal_milestones.find? (milestoneKey gid mid) with
  | none => ApiResult.err 404 "Milestone not found"
  | some _ => ApiResult.ok (goalPhase gid (milestonePhase gid mid mu now db))

/-! ## Aggregation Engine: `get_productivity_stats` (`app.py` lines 711-813)

Each `stats_` definition mirrors one local of the handler; the record
`get_productivity_stats` assembles the response.  All take the raw query
parameters `sd`/`ed` (`none` when absent) plus the current time and the
store.  No query in the source filters by owner. -/

/-- Round half to even to an integer (the rounding used by Python's `round`
on the ideal value). -/
def roundHalfEvenInt (q : ℚ) : Int :=
  let f := ⌊q⌋
  let r := q - (f : ℚ)
  if r < 1/2 then f
  else if 1/2 < r then f + 1
  else if f % 2 = 0 then f else f + 1

/-- Python's `round(x, d)` modelled on the ideal rational value. -/
def pyRound (d : Nat) (q : ℚ) : ℚ :=
  ((roundHalfEvenInt (q * 10 ^ d) : ℚ)) / 10 ^ d

/-- Window resolution (`app.py` lines 719-731): absent bounds default to
`[now - 30 days, now]`; an inverted range is swapped, never an error. -/
def stats_window (sd ed : Option Timestamp) (now : Timestamp) :
    Timestamp × Timestamp :=
  let start_date := sd.getD (now - 30 * secondsPerDay)
  let end_date := ed.getD now
  if start_date > end_date then (end_date, start_date)
  else (start_date, end_date)

/-- Calendar query (`app.py` lines 735-742): `start_datetime` inside the
resolved window, every owner's rows. -/
def stats_calendar_items (sd ed : Option Timestamp) (now : Timestamp)
    (db : Store) : List CalendarItem :=
  let w := stats_window sd ed now
  db.calendar_items.filter
    (fun i => decide (w.1 ≤ i.start_datetime) && decide (i.start_datetime ≤ w.2))

/-- Timer query (`app.py` lines 744-752): `start_time` inside the window and
`completed = true`, every owner's rows. -/
def stats_timer_sessions (sd ed : Option Timestamp) (now : Timestamp)
    (db : Store) : List TimerSession :=
  let w := stats_window sd ed now
  db.timer_sessions.filter
    (fun s => decide (w.1 ≤ s.start_time) && decide (s.start_time ≤ w.2)
      && s.completed)

/-- `tasks` (`app.py` line 756). -/
def stats_tasks (sd ed : Option Timestamp) (now : Timestamp) (db : Store) :
    List CalendarItem :=
  (stats_calendar_items sd ed now db).filter (fun i => i.item_type == "task")

/-- `completed_tasks` (`app.py` line 757). -/
def stats_completed_tasks (sd ed : Option Timestamp) (now : Timestamp)
    (db : Store) : List CalendarItem :=
  (stats_tasks sd ed now db).filter (fun t => t.completed)

/-- `events` (`app.py` line 758). -/
def stats_events (sd ed : Option Timestamp) (now : Timestamp) (db : Store) :
    List CalendarItem :=
  (stats_calendar_items sd ed now db).filter (fun i => i.item_type == "event")

/-- `total_focus_time` (`app.py` lines 762-764): sum of `duration` over the
selected sessions, skipping falsy (zero) durations. -/
def stats_total_focus_time (sd ed : Option Timestamp) (now : Timestamp)
    (db : Store) : Int :=
  (((stats_timer_sessions sd ed now db).filter (fun s => s.duration != 0)).map
    (fun s => s.duration)).sum

/-- `total_deep_work_time` (`app.py` lines 766-770). -/
def stats_total_deep_work_time (sd ed : Option Timestamp) (now : Timestamp)
    (db : Store) : Int :=
  (((stats_timer_sessions sd ed now db).filter
    (fun s => s.duration != 0 && s.category == "deep-work")).map
    (fun s => s.duration)).sum

/-- One step of the category-breakdown dict build (`app.py` lines 774-778):
`category_breakdown[cat] = category_breakdown.get(cat, 0) + 1`, with dict
insertion order. -/
def bumpCategory : List (String × Nat) → String → List (String × Nat)
  | [], cat => [(cat, 1)]
  | (k, v) :: rest, cat =>
      if k == cat then (k, v + 1) :: rest else (k, v) :: bumpCategory rest cat

/-- `category_breakdown` (`app.py` lines 774-778); a falsy (empty) category is
bucketed as `"uncategorized"`. -/
def stats_category_breakdown (sd ed : Option Timestamp) (now : Timestamp)
    (db : Store) : List (String × Nat) :=
  (stats_calendar_items sd ed now db).foldl
    (fun acc i =>
      bumpCategory acc (if i.category == "" then "uncategorized" else i.category))
    []

/-- `days_in_range` (`app.py` line 782): `max((end_date - start_date).days, 1)`
with `timedelta.days` as floor division by a whole day. -/
def stats_days_in_range (sd ed : Option Timestamp) (now : Timestamp) : Int :=
  let w := stats_window sd ed now
  max (Int.fdiv (w.2 - w.1) secondsPerDay) 1

/-- `completion_rate` (`app.py` lines 796-800), before response rounding:
`len(completed_tasks) / len(tasks)` when `tasks` is non-empty, else `0`. -/
def stats_completion_rate (sd ed : Option Timestamp) (now : Timestamp)
    (db : Store) : ℚ :=
  if (stats_tasks sd ed now db).isEmpty then 0
  else ((stats_completed_tasks sd ed now db).length : ℚ)
    / ((stats_tasks sd ed now db).length : ℚ)

/-- `daily_averages` (`app.py` lines 784-792). -/
structure DailyAverages where
  tasks_per_day : ℚ
  events_per_day : ℚ
  focus_minutes_per_day : ℚ
deriving Repr, DecidableEq

/-- `ProductivityStatsResponse` (`app.py` lines 804-813). -/
structure ProductivityStats where
  total_tasks : Nat
  completed_tasks : Nat
  total_events : Nat
  total_focus_time_minutes : Int
  total_deep_work_minutes : Int
  completion_rate : ℚ
  category_breakdown : List (String × Nat)
  daily_averages : DailyAverages
deriving Repr, DecidableEq

/-- `get_productivity_stats` (`app.py` lines 711-813): assemble the response.
The handler performs no writes; it returns a snapshot only. -/
def get_productivity_stats (sd ed : Option Timestamp) (now : Timestamp)
    (db : Store) : ProductivityStats :=
  let d : ℚ := (stats_days_in_range sd ed now : ℚ)
  { total_tasks := (stats_tasks sd ed now db).length
    completed_tasks := (stats_completed_tasks sd ed now db).length
    total_events := (stats_events sd ed now db).length
    total_focus_time_minutes := stats_total_focus_time sd ed now db
    total_deep_work_minutes := stats_total_deep_work_time sd ed now db
    completion_rate := pyRound 3 (stats_completion_rate sd ed now db)
    category_breakdown := stats_category_breakdown sd ed now db
    daily_averages :=
      { tasks_per_day := pyRound 2 (((stats_tasks sd ed now db).length : ℚ) / d)
        events_per_day := pyRound 2 (((stats_events sd ed now db).length : ℚ) / d)
        focus_minutes_per_day :=
          pyRound 2 ((stats_total_focus_time sd ed now db : ℚ) / d) } }

/-! ## Text digest: `get_user_productivity_data`
(`utils/productivity.py` lines 6-103)

Each `digest_` definition mirrors one local of the function; the string
assembly is pure formatting over these figures and is not modelled.  All
queries here filter by `user_id == user_id` and a `since`-based lower bound;
the function performs no writes. -/

/-- `since = now - timedelta(days=days)` (`utils/productivity.py` line 7). -/
def digest_since (now : Timestamp) (days : Int) : Timestamp :=
  now - days * secondsPerDay

/-- Calendar query (`utils/productivity.py` lines 9-14): owner-scoped, and
windowed on `created_at >= since` (not on `start_datetime`). -/
def digest_calendar_items (db : Store) (uid : Nat) (now : Timestamp)
    (days : Int) : List CalendarItem :=
  db.calendar_items.filter
    (fun i => i.user_id == some uid && decide (digest_since now days ≤ i.created_at))

/-- Goal query (`utils/productivity.py` line 16): owner-scoped, unwindowed. -/
def digest_goals (db : Store) (uid : Nat) : List Goal :=
  db.goals.filter (fun g => g.user_id == some uid)

/-- `tasks` (`utils/productivity.py` line 35). -/
def digest_tasks (db : Store) (uid : Nat) (now : Timestamp) (days : Int) :
    List CalendarItem :=
  (digest_calendar_items db uid now days).filter (fun i => i.item_type == "task")

/-- `completed_tasks` (`utils/productivity.py` line 37). -/
def digest_completed_tasks (db : Store) (uid : Nat) (now : Timestamp)
    (days : Int) : List CalendarItem :=
  (digest_tasks db uid now days).filter (fun t => t.completed)

/-- Per-goal milestone progress of the digest (`utils/productivity.py` lines
57-62): `progress = (completed / total * 100) if total else 0`, a float
percentage with no truncation, modelled exactly in `ℚ`. -/
def digest_goal_progress (db : Store) (g : Goal) : ℚ :=
  let milestones := milestonesOf db g.id
  let completed := (milestones.filter (fun m => m.completed)).length
  let total := milestones.length
  if total = 0 then 0 else ((completed : ℚ) / (total : ℚ)) * 100

/-- Timer query (`utils/productivity.py` lines 18-23): owner-scoped,
`start_time >= since`. -/
def digest_timer_sessions (db : Store) (uid : Nat) (now : Timestamp)
    (days : Int) : List TimerSession :=
  db.timer_sessions.filter
    (fun s => s.user_id == some uid && decide (digest_since now days ≤ s.start_time))

/-- `completed_sessions` (`utils/productivity.py` line 68). -/
def digest_completed_sessions (db : Store) (uid : Nat) (now : Timestamp)
    (days : Int) : List TimerSession :=
  (digest_timer_sessions db uid now days).filter (fun s => s.completed)

/-- `total_focus_time` (`utils/productivity.py` line 70): all durations of the
completed sessions (no falsy filter here, unlike `stats_total_focus_time`). -/
def digest_total_focus_time (db : Store) (uid : Nat) (now : Timestamp)
    (days : Int) : Int :=
  ((digest_completed_sessions db uid now days).map (fun s => s.duration)).sum

/-- Daily-log query (`utils/productivity.py` lines 25-30): owner-scoped,
`log_date >= since`. -/
def digest_daily_logs (db : Store) (uid : Nat) (now : Timestamp) (days : Int) :
    List DailyLog :=
  db.daily_logs.filter
    (fun l => l.user_id == some uid && decide (digest_since now days ≤ l.log_date))

/-- `sleep_values` (`utils/productivity.py` line 79):
`[l.sleep_hours for l in daily_logs if l.sleep_hours]` — the guard is Python
truthiness, so it drops both null and zero values. -/
def digest_sleep_values (db : Store) (uid : Nat) (now : Timestamp)
    (days : Int) : List ℚ :=
  ((digest_daily_logs db uid now days).filter
    (fun l => qTruthy l.sleep_hours)).map (fun l => l.sleep_hours.getD 0)

/-- `mood_values` (`utils/productivity.py` line 80), same truthiness guard. -/
def digest_mood_values (db : Store) (uid : Nat) (now : Timestamp)
    (days : Int) : List Int :=
  ((digest_daily_logs db uid now days).filter
    (fun l => zTruthy l.mood)).map (fun l => l.mood.getD 0)

/-- `avg_sleep` (`utils/productivity.py` lines 82-86). -/
def digest_avg_sleep (db : Store) (uid : Nat) (now : Timestamp) (days : Int) :
    ℚ :=
  let vs := digest_sleep_values db uid now days
  if vs.isEmpty then 0 else vs.sum / (vs.length : ℚ)

/-- `avg_mood` (`utils/productivity.py` lines 88-92). -/
def digest_avg_mood (db : Store) (uid : Nat) (now : Timestamp) (days : Int) :
    ℚ :=
  let vs := digest_mood_values db uid now days
  if vs.isEmpty then 0 else (vs.sum : ℚ) / (vs.length : ℚ)

/-- `gym_days` (`utils/productivity.py` line 94):
`sum(1 for l in daily_logs if l.gym_completed)`. -/
def digest_gym_days (db : Store) (uid : Nat) (now : Timestamp) (days : Int) :
    Nat :=
  ((digest_daily_logs db uid now days).filter (fun l => l.gym_completed)).length

/-! ## Daily-log creation: `create_daily_log` (`app.py` lines 623-641) -/

/-- `POST /logs/daily` request body (`schemas/daily_logs.py`, class
`DailyLogCreate`).  It carries no owner field. -/
structure DailyLogCreate where
  log_date : Timestamp
  sleep_hours : Option ℚ
  study_hours : Option ℚ
  screen_time_hours : Option ℚ
  gym_completed : Bool
  mood : Option Int
deriving Repr, DecidableEq

/-- `create_daily_log` (`app.py` lines 623-641): reject with 400 when any
existing log's `log_date` equals the new payload's date (`log.log_date.date()`,
the midnight truncation) — the check is not scoped to any owner; otherwise
insert the new row (`DailyLog(**log.dict())` sets no `user_id`, so the stored
owner is null).  `newId` models the autoincrement primary key. -/
def create_daily_log (payload : DailyLogCreate) (newId : Nat) (db : Store) :
    ApiResult Store :=
  match db.daily_logs.find? (fun l => l.log_date == dateFloor payload.log_date) with
  | some _ =>
      ApiResult.err 400 "Daily log for this date already exists. Use PUT to update."
  | none =>
      ApiResult.ok { db with daily_logs :=
        (db.daily_logs ++
          [{ id := newId
             user_id := none
             log_date := payload.log_date
             sleep_hours := payload.sleep_hours
             study_hours := payload.study_hours
             screen_time_hours := payload.screen_time_hours
             gym_completed := payload.gym_completed
             mood := payload.mood }]) }

/-! ## Goal creation: `create_goal` (`app.py` lines 413-435) -/

/-- Milestone item of the creation payload (`schemas/goals.py`, class
`GoalMilestoneCreate`): a title plus a `completed` flag that defaults to
false but may be sent as true. -/
structure GoalMilestoneCreate where
  title : String
  completed : Bool
deriving Repr, DecidableEq

/-- `POST /goals` request body (`schemas/goals.py`, class `GoalCreate`): no
status and no progress field. -/
structure GoalCreate where
  title : String
  category : String
  priority : String
  target_date : Timestamp
  milestones : List GoalMilestoneCreate
deriving Repr, DecidableEq

/-- `create_goal` (`app.py` lines 413-435): insert the goal row with the
column defaults `status = "not-started"`, `progress = 0`, `user_id` null
(`GoalCreate` has no such fields, so `Goal(**goal.dict())` leaves the
defaults), then insert one milestone row per payload milestone with
`completed` copied from the payload and `completed_at` left null.  No
progress recomputation happens here.  `goalId` models the generated id
`str(datetime.utcnow().timestamp())`; milestone ids are generated from the
same clock. -/
def create_goal (payload : GoalCreate) (goalId : String) (now : Timestamp)
    (db : Store) : Store × Goal :=
  let g : Goal :=
    { id := goalId
      user_id := none
      title := payload.title
      category := payload.category
      priority := payload.priority
      status := "not-started"
      target_date := payload.target_date
      progress := 0
      updated_at := now }
  let rows := payload.milestones.map
    (fun md =>
      { id := "ms_" ++ toString now
        user_id := none
        goal_id := goalId
        title := md.title
        completed := md.completed
        completed_at := none
        updated_at := now : GoalMilestone })
  ({ db with goals := db.goals ++ [g], goal_milestones := db.goal_milestones ++ rows },
    g)

/-! ## IEEE-754 binary64 model for the progress formula

`update_milestone` computes `int((completed_milestones / total_milestones)
* 100)` in Python doubles (`app.py` lines 503-507).  The following models
binary64 round-to-nearest-even for normal positive values and lets us
evaluate that expression exactly at concrete milestone counts. -/

/-- Round a rational to the nearest binary64 value (round half to even, 53-bit
significand, normal range; sufficient for the magnitudes that occur here). -/
def float64Round (q : ℚ) : ℚ :=
  if q = 0 then 0
  else
    let e : Int := Int.log 2 |q|
    let s : ℚ := 2 ^ (52 - e)
    ((roundHalfEvenInt (q * s) : ℚ)) / s

/-- Python `completed / total` on small non-negative ints: both operands are
exact doubles, the quotient is rounded once. -/
def pyDivNat (a b : Nat) : ℚ :=
  float64Round ((a : ℚ) / (b : ℚ))

/-- `int((completed / total) * 100)` in binary64: divide (rounded), multiply
by 100 (rounded), then truncate toward zero (the values are non-negative, so
truncation is the floor).  This is the progress the source stores when
`total > 0`. -/
def pyProgressFloat (completedCount totalCount : Nat) : Int :=
  if totalCount > 0 then
    ⌊float64Round (pyDivNat completedCount totalCount * 100)⌋
  else 0

/-! ## Concrete stores used by the evaluation theorems

`dbA` holds data created by user 1 (`user_id = some 1` everywhere); the
requests evaluated against it carry no owner because the source handlers
neither authenticate nor filter by `user_id`. -/

/-- User 1's goal. -/
def gA : Goal :=
  { id := "g1", user_id := some 1, title := "write thesis",
    category := "learning", priority := "high", status := "not-started",
    target_date := 0, progress := 0, updated_at := 0 }

/-- User 1's milestone under `gA`, not yet completed. -/
def mA : GoalMilestone :=
  { id := "m1", user_id := some 1, goal_id := "g1", title := "outline",
    completed := false, completed_at := none, updated_at := 0 }

/-- User 1's calendar task, starting on day 1. -/
def taskA : CalendarItem :=
  { id := "c1", user_id := some 1, title := "draft chapter",
    start_datetime := secondsPerDay, end_datetime := 2 * secondsPerDay,
    category := "learning", item_type := "task", completed := false,
    created_at := 0 }

/-- Store holding only user 1's data. -/
def dbA : Store :=
  { goals := [gA], goal_milestones := [mA], calendar_items := [taskA],
    timer_sessions := [], daily_logs := [] }

/-- The update body `{"completed": true}`. -/
def muComplete : GoalMilestoneUpdate := { title := none, completed := some true }

/-- The store after `update_milestone "g1" "m1" muComplete 5 dbA`:
user 1's milestone and goal are mutated although the request carried no
proof of ownership. -/
def dbA' : Store :=
  { goals := [{ gA with progress := 100, status := "completed" }],
    goal_milestones :=
      [{ mA with completed := true, completed_at := some 5, updated_at := 5 }],
    calendar_items := [taskA], timer_sessions := [], daily_logs := [] }

/-- A milestone row whose `goal_id` references a goal that is absent from the
store (the `if goal:` branch of the source is skipped for it). -/
def mOrphan : GoalMilestone :=
  { id := "m2", user_id := some 1, goal_id := "g2", title := "stray",
    completed := false, completed_at := none, updated_at := 0 }

/-- Store with the orphan milestone and no goals. -/
def dbOrphan : Store :=
  { goals := [], goal_milestones := [mOrphan], calendar_items := [],
    timer_sessions := [], daily_logs := [] }

/-- `dbOrphan` after the (successful) update of the orphan milestone. -/
def dbOrphan' : Store :=
  { goals := [], goal_milestones :=
      [{ mOrphan with completed := true, completed_at := some 5, updated_at := 5 }],
    calendar_items := [], timer_sessions := [], daily_logs := [] }

/-- User 1's daily log stored at midnight of day 0. -/
def logMidnight : DailyLog :=
  { id := 1, user_id := some 1, log_date := 0, sleep_hours := none,
    study_hours := none, screen_time_hours := none, gym_completed := false,
    mood := none }

/-- Store holding user 1's midnight log. -/
def dbLogs : Store :=
  { goals := [], goal_milestones := [], calendar_items := [],
    timer_sessions := [], daily_logs := [logMidnight] }

/-- A second owner's creation payload for the same date (the payload carries
no owner field, and the handler stores `user_id` as null). -/
def payloadSameDate : DailyLogCreate :=
  { log_date := 0, sleep_hours := none, study_hours := none,
    screen_time_hours := none, gym_completed := false, mood := none }

/-- User 1's daily log stored at noon of day 0 (log_date 43200). -/
def logNoon : DailyLog :=
  { logMidnight with id := 2, log_date := 43200 }

/-- Store holding the noon log. -/
def dbLogsNoon : Store :=
  { dbLogs with daily_logs := [logNoon] }

/-- A creation payload duplicating the noon log's date and time. -/
def payloadNoon : DailyLogCreate :=
  { payloadSameDate with log_date := 43200 }

/-- `dbLogsNoon` after the (accepted) duplicate creation. -/
def dbLogsNoon' : Store :=
  { dbLogs with daily_logs :=
      [logNoon,
       { id := 3, user_id := none, log_date := 43200, sleep_hours := none,
         study_hours := none, screen_time_hours := none,
         gym_completed := false, mood := none }] }

/-- A goal with three milestones, one completed (for the digest/engine
comparison). -/
def g8 : Goal :=
  { id := "g8", user_id := some 1, title := "learn lean",
    category := "learning", priority := "medium", status := "in-progress",
    target_date := 0, progress := 33, updated_at := 0 }

/-- The three milestones of `g8`; only the first is completed. -/
def ms8 : List GoalMilestone :=
  [{ id := "m8a", user_id := some 1, goal_id := "g8", title := "basics",
     completed := true, completed_at := some 0, updated_at := 0 },
   { id := "m8b", user_id := some 1, goal_id := "g8", title := "tactics",
     completed := false, completed_at := none, updated_at := 0 },
   { id := "m8c", user_id := some 1, goal_id := "g8", title := "mathlib",
     completed := false, completed_at := none, updated_at := 0 }]

/-- A calendar item created on day 50 whose occurrence starts on day 80:
inside the stats window `[day 70, day 100]` by `start_datetime`, outside the
digest's `created_at >= day 70` selection. -/
def itemOld : CalendarItem :=
  { id := "c8", user_id := some 1, title := "review session",
    start_datetime := 80 * secondsPerDay, end_datetime := 81 * secondsPerDay,
    category := "learning", item_type := "task", completed := false,
    created_at := 50 * secondsPerDay }

/-- Store for the digest/engine comparison. -/
def db8 : Store :=
  { goals := [g8], goal_milestones := ms8, calendar_items := [itemOld],
    timer_sessions := [], daily_logs := [] }

/-- User 1's log with a present sleep value of 0 hours. -/
def log9a : DailyLog :=
  { id := 1, user_id := some 1, log_date := 10, sleep_hours := some 0,
    study_hours := none, screen_time_hours := none, gym_completed := false,
    mood := some 5 }

/-- User 1's log with 8 hours of sleep. -/
def log9b : DailyLog :=
  { id := 2, user_id := some 1, log_date := 20, sleep_hours := some 8,
    study_hours := none, screen_time_hours := none, gym_completed := true,
    mood := some 5 }

/-- Store with the two sleep logs. -/
def db9 : Store :=
  { goals := [], goal_milestones := [], calendar_items := [],
    timer_sessions := [], daily_logs := [log9a, log9b] }

/-! ## Helper lemmas -/

/-- `updateFirst` commutes with `find?` for the same predicate when the
mutation preserves the predicate. -/
theorem find?_updateFirst (p : α → Bool) (f : α → α) (l : List α)
    (hpf : ∀ a, p (f a) = p a) :
    (updateFirst p f l).find? p = (l.find? p).map f := by
  induction l with
  | nil => rfl
  | cons a as ih =>
    by_cases h : p a = true
    · rw [updateFirst, if_pos h, List.find?_cons_of_pos _ ((hpf a).trans h),
        List.find?_cons_of_pos _ h, Option.map_some']
    · have h' : p a = false := by simpa using h
      rw [updateFirst, if_neg (by simp [h']), List.find?_cons_of_neg _ (by simp [h']),
        List.find?_cons_of_neg _ (by simp [h']), ih]

/-- The milestone field loop preserves the row's primary key. -/
theorem applyMilestoneFields_id (mu : GoalMilestoneUpdate) (now : Timestamp)
    (m : GoalMilestone) : (applyMilestoneFields mu now m).id = m.id := by
  unfold applyMilestoneFields
  cases h1 : mu.title <;> cases h2 : mu.completed <;>
    simp only [h1, h2] <;> (try split) <;> (try split) <;> rfl

/-- The milestone field loop preserves the row's goal reference. -/
theorem applyMilestoneFields_goal_id (mu : GoalMilestoneUpdate)
    (now : Timestamp) (m : GoalMilestone) :
    (applyMilestoneFields mu now m).goal_id = m.goal_id := by
  unfold applyMilestoneFields
  cases h1 : mu.title <;> cases h2 : mu.completed <;>
    simp only [h1, h2] <;> (try split) <;> (try split) <;> rfl

/-- The milestone field loop does not read or write `user_id`. -/
theorem applyMilestoneFields_user_id (mu : GoalMilestoneUpdate)
    (now : Timestamp) (m : GoalMilestone) :
    (applyMilestoneFields mu now m).user_id = m.user_id := by
  unfold applyMilestoneFields
  cases h1 : mu.title <;> cases h2 : mu.completed <;>
    simp only [h1, h2] <;> (try split) <;> (try split) <;> rfl

/-- The full milestone mutation (field loop plus `updated_at` stamp)
preserves the lookup key. -/
theorem milestoneKey_mutation (gid mid : String) (mu : GoalMilestoneUpdate)
    (now : Timestamp) (m : GoalMilestone) :
    milestoneKey gid mid (milestoneMutation mu now m) =
      milestoneKey gid mid m := by
  simp [milestoneKey, milestoneMutation, applyMilestoneFields_id,
    applyMilestoneFields_goal_id]

/-- The milestone mutation only restamps `updated_at` beyond the field
loop, so `completed_at` is whatever the field loop produced. -/
theorem milestoneMutation_completed_at (mu : GoalMilestoneUpdate)
    (now : Timestamp) (m : GoalMilestone) :
    (milestoneMutation mu now m).completed_at =
      (applyMilestoneFields mu now m).completed_at := rfl

/-- `recomputeGoal` preserves the goal's primary key. -/
theorem recomputeGoal_id (db : Store) (g : Goal) :
    (recomputeGoal db g).id = g.id := rfl

/-- `milestonePhase` touches only the milestone table. -/
theorem milestonePhase_goals (gid mid : String) (mu : GoalMilestoneUpdate)
    (now : Timestamp) (db : Store) :
    (milestonePhase gid mid mu now db).goals = db.goals := rfl

/-- `goalPhase` touches only the goal table. -/
theorem goalPhase_goal_milestones (gid : String) (d : Store) :
    (goalPhase gid d).goal_milestones = d.goal_milestones := by
  unfold goalPhase
  split <;> rfl

/-- When the goal is present, `goalPhase` replaces it by its recomputation. -/
theorem goalPhase_find? (gid : String) (d : Store) (g : Goal)
    (h : d.goals.find? (goalKey gid) = some g) :
    (goalPhase gid d).goals.find? (goalKey gid) =
      some (recomputeGoal d g) := by
  have hpf : ∀ a, goalKey gid (recomputeGoal d a) = goalKey gid a := by
    intro a
    simp [goalKey, recomputeGoal_id]
  unfold goalPhase
  rw [h]
  show (updateFirst (goalKey gid) (fun g => recomputeGoal d g) d.goals).find?
    (goalKey gid) = some (recomputeGoal d g)
  rw [find?_updateFirst (goalKey gid) (fun g => recomputeGoal d g) d.goals hpf, h,
    Option.map_some']

/-- A successful `update_milestone` produced the two phases in order. -/
theorem update_milestone_ok (gid mid : String) (mu : GoalMilestoneUpdate)
    (now : Timestamp) (db db' : Store)
    (h : update_milestone gid mid mu now db = ApiResult.ok db') :
    db' = goalPhase gid (milestonePhase gid mid mu now db) := by
  unfold update_milestone at h
  cases hfind : db.goal_milestones.find? (milestoneKey gid mid) with
  | none =>
      rw [hfind] at h
      exact absurd h (by simp)
  | some m0 =>
      rw [hfind] at h
      simpa using h.symm

/-- The milestone table of the committed store is the mutated one. -/
theorem update_milestone_ok_milestones (gid mid : String)
    (mu : GoalMilestoneUpdate) (now : Timestamp) (db db' : Store)
    (h : update_milestone gid mid mu now db = ApiResult.ok db') :
    db'.goal_milestones = (milestonePhase gid mid mu now db).goal_milestones := by
  rw [update_milestone_ok gid mid mu now db db' h, goalPhase_goal_milestones]

/-- The recomputed percentage never exceeds 100 when the completed count is
bounded by the total count. -/
theorem goalProgress_le_100 (c t : Nat) (hct : c ≤ t) :
    goalProgress c t ≤ 100 := by
  unfold goalProgress
  split
  · next ht =>
      have h1 : (100 * c) / t ≤ (100 * t) / t :=
        Nat.div_le_div_right (Nat.mul_le_mul_left 100 hct)
      have h2 : (100 * t) / t = 100 := by
        rw [Nat.mul_div_assoc 100 (dvd_refl t), Nat.div_self ht, Nat.mul_one]
      omega
  · exact Nat.zero_le 100

/-- Characterize `Int.log 2` by a power-of-two bracketing, to evaluate
`float64Round` at concrete rationals. -/
theorem int_log_two_eq {r : ℚ} {e : Int} (hr : 0 < r)
    (h1 : (2 : ℚ) ^ e ≤ r) (h2 : r < (2 : ℚ) ^ (e + 1)) :
    Int.log 2 r = e := by
  have hb : 1 < (2 : ℕ) := one_lt_two
  have hcast : ((2 : ℕ) : ℚ) = (2 : ℚ) := by norm_num
  have hle : e ≤ Int.log 2 r := by
    rw [← Int.zpow_le_iff_le_log hb hr, hcast]
    exact h1
  have hlt : Int.log 2 r < e + 1 := by
    rw [← Int.lt_zpow_iff_log_lt hb hr, hcast]
    exact h2
  omega

/-- Unfold `float64Round` once the exponent of the argument is known. -/
theorem float64Round_of_log {q : ℚ} {e : Int} (hq : q ≠ 0)
    (hlog : Int.log 2 |q| = e) :
    float64Round q =
      ((roundHalfEvenInt (q * 2 ^ (52 - e)) : ℚ)) / 2 ^ (52 - e) := by
  unfold float64Round
  rw [if_neg hq, hlog]

/-- Binary64 evaluation of `29 / 100`: the nearest double is
`5224175567749775 / 2 ^ 54`, slightly below the true value. -/
theorem pyDivNat_29_100 :
    pyDivNat 29 100 = (5224175567749775 : ℚ) / 18014398509481984 := by
  unfold pyDivNat
  rw [show ((29 : ℕ) : ℚ) = 29 by norm_num, show ((100 : ℕ) : ℚ) = 100 by norm_num]
  have hlog : Int.log 2 |(29 : ℚ) / 100| = (-2 : ℤ) := by
    rw [abs_of_pos (by norm_num : (0 : ℚ) < 29 / 100)]
    exact int_log_two_eq (by norm_num) (by norm_num) (by norm_num)
  rw [float64Round_of_log (by norm_num) hlog]
  rw [show (52 - (-2 : ℤ)) = 54 by norm_num]
  rw [show (29 : ℚ) / 100 * 2 ^ (54 : ℤ) = 130604389193744384 / 25 by norm_num]
  rw [show roundHalfEvenInt ((130604389193744384 : ℚ) / 25) = 5224175567749775 by
    simp only [roundHalfEvenInt]
    norm_num]
  norm_num

/-- Binary64 evaluation of `int((29 / 100) * 100)`: the double product is
`8162774324609023 / 2 ^ 48 = 28.999999999999996…`, so the truncation yields
28. -/
theorem pyProgressFloat_29_100 : pyProgressFloat 29 100 = 28 := by
  unfold pyProgressFloat
  rw [if_pos (by norm_num : (100 : ℕ) > 0), pyDivNat_29_100]
  have hprod : (5224175567749775 : ℚ) / 18014398509481984 * 100 =
      130604389193744375 / 4503599627370496 := by norm_num
  rw [hprod]
  have hlog : Int.log 2 |(130604389193744375 : ℚ) / 4503599627370496| = (4 : ℤ) := by
    rw [abs_of_pos (by norm_num : (0 : ℚ) < 130604389193744375 / 4503599627370496)]
    exact int_log_two_eq (by norm_num) (by norm_num) (by norm_num)
  rw [float64Round_of_log (by norm_num) hlog]
  rw [show (52 - (4 : ℤ)) = 48 by norm_num]
  rw [show (130604389193744375 : ℚ) / 4503599627370496 * 2 ^ (48 : ℤ) =
      130604389193744375 / 16 by norm_num]
  rw [show roundHalfEvenInt ((130604389193744375 : ℚ) / 16) = 8162774324609023 by
    simp only [roundHalfEvenInt]
    norm_num]
  norm_num

/-! ## Claim theorems -/

/-- C1.  Ownership isolation fails: `update_milestone` and
`get_productivity_stats` receive no authenticated owner and filter nothing by
`user_id` (`app.py` lines 476-483 and 735-752).  Evaluated at a store holding
only user 1's data: a request carrying only ids — in particular one issued on
behalf of user 2 — mutates user 1's milestone and goal and is acknowledged
instead of failing with `NotFound`, and the aggregation counts user 1's
calendar task. -/
theorem ownership_isolation_violated :
    update_milestone "g1" "m1" muComplete 5 dbA = ApiResult.ok dbA' ∧
    dbA'.goal_milestones.map (fun m => m.completed) = [true] ∧
    dbA'.goals.map (fun g => g.progress) = [100] ∧
    (get_productivity_stats (some 0) (some (10 * secondsPerDay)) 0 dbA).total_tasks = 1 :=
  ⟨by decide, by decide, by decide, by decide⟩

/-- C2.  The source stores `int((completed_milestones / total_milestones) *
100)` (`app.py` lines 503-507) evaluated in binary64.  At 29 completed of 100
milestones the double product is 28.999999999999996, so the stored progress
is 28, while the specified `floor(100 * 29 / 100)` — the exact truncation the
claim and `goalProgress` state — is 29. -/
theorem progress_float_vs_floor :
    pyProgressFloat 29 100 = 28 ∧ goalProgress 29 100 = 29 ∧
    pyProgressFloat 29 100 ≠ ((goalProgress 29 100 : Nat) : Int) := by
  refine ⟨pyProgressFloat_29_100, by decide, ?_⟩
  rw [pyProgressFloat_29_100, show goalProgress 29 100 = 29 from by decide]
  norm_num

/-- C4.  NotFound semantics of `update_milestone`: a missing
`(milestone_id, goal_id)` pair yields 404 before any mutation, but ownership
is never consulted (user 1's milestone is mutated by an ownerless request)
and a milestone whose parent goal row is absent is still updated successfully
(`if goal:` merely skips the recomputation) instead of failing. -/
theorem milestone_notfound_semantics :
    update_milestone "g1" "missing" muComplete 5 dbA =
      ApiResult.err 404 "Milestone not found" ∧
    update_milestone "gX" "m1" muComplete 5 dbA =
      ApiResult.err 404 "Milestone not found" ∧
    update_milestone "g2" "m2" muComplete 5 dbOrphan = ApiResult.ok dbOrphan' ∧
    update_milestone "g1" "m1" muComplete 5 dbA = ApiResult.ok dbA' :=
  ⟨by decide, by decide, by decide, by decide⟩

/-- C7.  The duplicate check of `create_daily_log` (`app.py` lines 626-635)
compares every owner's rows against the midnight truncation of the new date:
a second owner's log for an already-logged date is rejected (the row is not
even attributed to an owner — `user_id` is stored as null), while a genuine
same-date duplicate stored at noon is accepted, because the stored timestamp
differs from its own midnight truncation. -/
theorem daily_log_uniqueness_not_per_owner :
    create_daily_log payloadSameDate 2 dbLogs =
      ApiResult.err 400 "Daily log for this date already exists. Use PUT to update." ∧
    create_daily_log payloadNoon 3 dbLogsNoon = ApiResult.ok dbLogsNoon' :=
  ⟨by decide, by decide⟩

/-- A truthiness-guarded comprehension over an optional rational field keeps
exactly the values that are present and non-zero. -/
theorem truthy_rat_values {α : Type} (f : α → Option ℚ) (l : List α) :
    (l.filter (fun a => qTruthy (f a))).map (fun a => (f a).getD 0) =
      l.filterMap (fun a => (f a).bind (fun x => if x = 0 then none else some x)) := by
  induction l with
  | nil => rfl
  | cons a as ih =>
      cases hf : f a with
      | none =>
          rw [List.filter_cons_of_neg (by simp [hf, qTruthy]),
            List.filterMap_cons_none (by simp [hf]), ih]
      | some x =>
          by_cases hx : x = 0
          · rw [List.filter_cons_of_neg (by simp [hf, qTruthy, hx]),
              List.filterMap_cons_none (by simp [hf, hx]), ih]
          · rw [List.filter_cons_of_pos (by simp [hf, qTruthy, hx])]
            simp only [List.map_cons, List.filterMap_cons, hf, Option.some_bind,
              if_neg hx, ih]
            rfl

/-- A truthiness-guarded comprehension over an optional integer field keeps
exactly the values that are present and non-zero. -/
theorem truthy_int_values {α : Type} (f : α → Option Int) (l : List α) :
    (l.filter (fun a => zTruthy (f a))).map (fun a => (f a).getD 0) =
      l.filterMap (fun a => (f a).bind (fun x => if x = 0 then none else some x)) := by
  induction l with
  | nil => rfl
  | cons a as ih =>
      cases hf : f a with
      | none =>
          rw [List.filter_cons_of_neg (by simp [hf, zTruthy]),
            List.filterMap_cons_none (by simp [hf]), ih]
      | some x =>
          by_cases hx : x = 0
          · rw [List.filter_cons_of_neg (by simp [hf, zTruthy, hx]),
              List.filterMap_cons_none (by simp [hf, hx]), ih]
          · rw [List.filter_cons_of_pos (by simp [hf, zTruthy, hx])]
            simp only [List.map_cons, List.filterMap_cons, hf, Option.some_bind,
              if_neg hx, ih]
            rfl

/-- C3.  Status derivation after a successful milestone update (`app.py`
lines 509-513): writing `p` for the recomputed progress, `p = 100` forces
`"completed"`, `0 < p < 100` forces `"in-progress"`, and `p = 0` leaves the
status exactly as it was before the update — in particular a prior value such
as `"completed"` or `"paused"` survives.  The recomputed progress can never
exceed 100, so the two positive branches are exhaustive above zero. -/
theorem goal_status_after_milestone_update
    (gid mid : String) (mu : GoalMilestoneUpdate) (now : Timestamp)
    (db db2 : Store) (g : Goal)
    (hupd : update_milestone gid mid mu now db = ApiResult.ok db2)
    (hg : db.goals.find? (goalKey gid) = some g) :
    ∃ g2, db2.goals.find? (goalKey gid) = some g2 ∧
      g2.progress ≤ 100 ∧
      (g2.progress = 100 → g2.status = "completed") ∧
      (0 < g2.progress → g2.progress < 100 → g2.status = "in-progress") ∧
      (g2.progress = 0 → g2.status = g.status) := by
  have hdb2 := update_milestone_ok gid mid mu now db db2 hupd
  have hg1 : (milestonePhase gid mid mu now db).goals.find? (goalKey gid) = some g := hg
  have hfind := goalPhase_find? gid (milestonePhase gid mid mu now db) g hg1
  rw [hdb2]
  obtain ⟨c, t, hct, hp, hs⟩ :
      ∃ c t, c ≤ t ∧
        (recomputeGoal (milestonePhase gid mid mu now db) g).progress = goalProgress c t ∧
        (recomputeGoal (milestonePhase gid mid mu now db) g).status =
          (if goalProgress c t = 100 then "completed"
           else if goalProgress c t > 0 then "in-progress" else g.status) :=
    ⟨_, _, List.length_filter_le _ _, rfl, rfl⟩
  refine ⟨recomputeGoal (milestonePhase gid mid mu now db) g, hfind, ?_, ?_, ?_, ?_⟩
  · rw [hp]
    exact goalProgress_le_100 c t hct
  · intro h
    rw [hp] at h
    rw [hs, if_pos h]
  · intro h1 h2
    rw [hp] at h1 h2
    rw [hs, if_neg (by omega), if_pos (by omega)]
  · intro h
    rw [hp] at h
    rw [hs, if_neg (by omega), if_neg (by omega)]

/-- Witness for C3: completing user 1's only milestone drives the goal to
progress 100 and status `"completed"`. -/
theorem goal_status_after_milestone_update_witness :
    update_milestone "g1" "m1" muComplete 5 dbA = ApiResult.ok dbA' ∧
    dbA.goals.find? (goalKey "g1") = some gA ∧
    (∃ g2, dbA'.goals.find? (goalKey "g1") = some g2 ∧
      g2.progress ≤ 100 ∧
      (g2.progress = 100 → g2.status = "completed") ∧
      (0 < g2.progress → g2.progress < 100 → g2.status = "in-progress") ∧
      (g2.progress = 0 → g2.status = gA.status)) :=
  ⟨by decide, by decide,
    goal_status_after_milestone_update "g1" "m1" muComplete 5 dbA dbA' gA
      (by decide) (by decide)⟩

/-- C5.  `completed_at` edge semantics of the milestone field loop (`app.py`
lines 488-494), for states satisfying the creation-established coherence
`completed = false → completed_at = none`: a false-to-true update stamps the
current time, a true-to-false update clears the timestamp, and an update
whose `completed` equals the current value — or that omits `completed` —
leaves `completed_at` unchanged (no refresh on repeated completion). -/
theorem milestone_completed_at_edges
    (gid mid : String) (mu : GoalMilestoneUpdate) (now : Timestamp)
    (db db2 : Store) (m : GoalMilestone)
    (hupd : update_milestone gid mid mu now db = ApiResult.ok db2)
    (hm : db.goal_milestones.find? (milestoneKey gid mid) = some m)
    (hcoh : m.completed = false → m.completed_at = none) :
    ∃ m2, db2.goal_milestones.find? (milestoneKey gid mid) = some m2 ∧
      (mu.completed = some true → m.completed = false → m2.completed_at = some now) ∧
      (mu.completed = some false → m2.completed_at = none) ∧
      (mu.completed = some m.completed → m2.completed_at = m.completed_at) ∧
      (mu.completed = none → m2.completed_at = m.completed_at) := by
  have hms := update_milestone_ok_milestones gid mid mu now db db2 hupd
  have hmut : (milestonePhase gid mid mu now db).goal_milestones =
      updateFirst (milestoneKey gid mid) (milestoneMutation mu now)
        db.goal_milestones := rfl
  rw [hms, hmut, find?_updateFirst _ _ _ (milestoneKey_mutation gid mid mu now),
    hm, Option.map_some']
  refine ⟨milestoneMutation mu now m, rfl, ?_, ?_, ?_, ?_⟩
  · intro h1 h2
    rw [milestoneMutation_completed_at]
    cases ht : mu.title <;> simp [applyMilestoneFields, ht, h1, h2]
  · intro h1
    rw [milestoneMutation_completed_at]
    cases ht : mu.title <;> simp [applyMilestoneFields, ht, h1]
  · intro h1
    rw [milestoneMutation_completed_at]
    cases hmc : m.completed
    · rw [hmc] at h1
      cases ht : mu.title <;>
        simp [applyMilestoneFields, ht, h1, hmc, hcoh hmc]
    · rw [hmc] at h1
      cases ht : mu.title <;> simp [applyMilestoneFields, ht, h1, hmc]
  · intro h1
    rw [milestoneMutation_completed_at]
    cases ht : mu.title <;> simp [applyMilestoneFields, ht, h1]

/-- Witness for C5: the false-to-true update of user 1's milestone stamps
`completed_at` with the current time 5. -/
theorem milestone_completed_at_edges_witness :
    update_milestone "g1" "m1" muComplete 5 dbA = ApiResult.ok dbA' ∧
    dbA.goal_milestones.find? (milestoneKey "g1" "m1") = some mA ∧
    (mA.completed = false → mA.completed_at = none) ∧
    (∃ m2, dbA'.goal_milestones.find? (milestoneKey "g1" "m1") = some m2 ∧
      (muComplete.completed = some true → mA.completed = false →
        m2.completed_at = some 5) ∧
      (muComplete.completed = some false → m2.completed_at = none) ∧
      (muComplete.completed = some mA.completed → m2.completed_at = mA.completed_at) ∧
      (muComplete.completed = none → m2.completed_at = mA.completed_at)) :=
  ⟨by decide, by decide, by decide,
    milestone_completed_at_edges "g1" "m1" muComplete 5 dbA dbA' mA
      (by decide) (by decide) (by decide)⟩

/-- C6.  `get_productivity_stats` never divides by zero (`app.py` lines
782-800): `days_in_range` is the floor-division day count clamped to at least
1, so every per-day average has a non-zero denominator, and the completion
rate is the guarded ratio — exactly `completed / total` over a non-empty task
list and 0 when no tasks are in range. -/
theorem stats_no_division_fault (sd ed : Option Timestamp) (now : Timestamp)
    (db : Store) :
    stats_days_in_range sd ed now =
      max (Int.fdiv ((stats_window sd ed now).2 - (stats_window sd ed now).1)
        secondsPerDay) 1 ∧
    1 ≤ stats_days_in_range sd ed now ∧
    (stats_tasks sd ed now db = [] → stats_completion_rate sd ed now db = 0) ∧
    (stats_tasks sd ed now db ≠ [] →
      stats_completion_rate sd ed now db =
        ((stats_completed_tasks sd ed now db).length : ℚ) /
          ((stats_tasks sd ed now db).length : ℚ) ∧
      ((stats_tasks sd ed now db).length : ℚ) ≠ 0) := by
  refine ⟨rfl, le_max_right _ _, ?_, ?_⟩
  · intro h
    simp [stats_completion_rate, h]
  · intro h
    have hlen : (stats_tasks sd ed now db).length ≠ 0 := by
      intro hl
      exact h (List.length_eq_zero.mp hl)
    have hemp : (stats_tasks sd ed now db).isEmpty = false := by
      cases hv : stats_tasks sd ed now db
      · exact absurd hv h
      · rfl
    constructor
    · simp [stats_completion_rate, hemp]
    · exact Nat.cast_ne_zero.mpr hlen

/-- C8, counterexample.  The digest does not recompute milestone progress by
the engine's rule and does not select calendar items by the engine's window:
for one completed milestone out of three the digest reports the untruncated
`100/3` percent while the engine stores `floor(100/3) = 33`, and an item
created on day 50 with `start_datetime` on day 80 is selected by
`get_productivity_stats` for the window `[day 70, day 100]` but not by the
digest over the same 30 days (`created_at >= day 70` fails). -/
theorem digest_not_stats_refinement :
    digest_goal_progress db8 g8 = 100 / 3 ∧
    goalProgress 1 3 = 33 ∧
    digest_goal_progress db8 g8 ≠ ((goalProgress 1 3 : Nat) : ℚ) ∧
    stats_calendar_items (some (70 * secondsPerDay)) (some (100 * secondsPerDay))
      (100 * secondsPerDay) db8 = [itemOld] ∧
    digest_calendar_items db8 1 (100 * secondsPerDay) 30 = [] := by
  have h1 : digest_goal_progress db8 g8 = 100 / 3 := by
    show (if ((3 : Nat) = 0) then (0 : ℚ)
      else (((1 : Nat) : ℚ) / ((3 : Nat) : ℚ)) * 100) = 100 / 3
    norm_num
  refine ⟨h1, by decide, ?_, by decide, by decide⟩
  rw [h1, show goalProgress 1 3 = 33 from by decide]
  norm_num

/-- C8, amended.  What the digest actually computes: per-goal progress is the
exact percentage `100 * completed / total` (0 with no milestones), which
coincides with the engine's floored value exactly when the division is exact;
and its calendar selection is the owner's items with `created_at` in the last
`days` days, not a `start_datetime` window. -/
theorem digest_recomputation_characterization
    (db : Store) (uid : Nat) (now : Timestamp) (days : Int) (g : Goal)
    (i : CalendarItem) :
    (milestonesOf db g.id = [] → digest_goal_progress db g = 0) ∧
    (milestonesOf db g.id ≠ [] →
      digest_goal_progress db g =
        (100 * (((milestonesOf db g.id).filter (fun m => m.completed)).length : ℚ)) /
          ((milestonesOf db g.id).length : ℚ)) ∧
    ((milestonesOf db g.id).length ∣
        100 * ((milestonesOf db g.id).filter (fun m => m.completed)).length →
      digest_goal_progress db g =
        ((goalProgress ((milestonesOf db g.id).filter (fun m => m.completed)).length
            (milestonesOf db g.id).length : Nat) : ℚ)) ∧
    (i ∈ digest_calendar_items db uid now days ↔
      i ∈ db.calendar_items ∧ i.user_id = some uid ∧
        digest_since now days ≤ i.created_at) := by
  have hzero : milestonesOf db g.id = [] → digest_goal_progress db g = 0 := by
    intro h
    show (if ((milestonesOf db g.id).length = 0) then (0 : ℚ)
      else ((((milestonesOf db g.id).filter (fun m => m.completed)).length : ℚ) /
        ((milestonesOf db g.id).length : ℚ)) * 100) = 0
    rw [if_pos (by rw [h]; rfl)]
  have hpos : milestonesOf db g.id ≠ [] →
      digest_goal_progress db g =
        (100 * (((milestonesOf db g.id).filter (fun m => m.completed)).length : ℚ)) /
          ((milestonesOf db g.id).length : ℚ) := by
    intro h
    have hlen : (milestonesOf db g.id).length ≠ 0 := by
      intro hl
      exact h (List.length_eq_zero.mp hl)
    show (if ((milestonesOf db g.id).length = 0) then (0 : ℚ)
      else ((((milestonesOf db g.id).filter (fun m => m.completed)).length : ℚ) /
        ((milestonesOf db g.id).length : ℚ)) * 100) = _
    rw [if_neg hlen, div_mul_eq_mul_div, mul_comm]
  refine ⟨hzero, hpos, ?_, ?_⟩
  · intro hdvd
    by_cases ht : (milestonesOf db g.id).length = 0
    · rw [hzero (List.length_eq_zero.mp ht)]
      simp [goalProgress, ht]
    · rw [hpos (fun hh => ht (by rw [hh]; rfl))]
      have htq : ((milestonesOf db g.id).length : ℚ) ≠ 0 := Nat.cast_ne_zero.mpr ht
      rw [show goalProgress ((milestonesOf db g.id).filter (fun m => m.completed)).length
          (milestonesOf db g.id).length =
          (100 * ((milestonesOf db g.id).filter (fun m => m.completed)).length) /
            (milestonesOf db g.id).length from by
        unfold goalProgress
        rw [if_pos (Nat.pos_of_ne_zero ht)]]
      rw [Nat.cast_div hdvd htq]
      push_cast
      ring
  · simp [digest_calendar_items, List.mem_filter, Bool.and_eq_true, beq_iff_eq,
      decide_eq_true_eq, and_assoc]

/-- C9, counterexample.  A daily log whose `sleep_hours` is present but 0 is
dropped from the sleep average (`if l.sleep_hours` is Python truthiness, not
a null test): over logs with sleep 0 and 8 the digest reports 8, not the
claimed average 4 over all non-null values. -/
theorem digest_average_drops_zero :
    digest_sleep_values db9 1 100 30 = [8] ∧
    digest_avg_sleep db9 1 100 30 = 8 ∧
    ((0 : ℚ) + 8) / 2 = 4 ∧
    digest_avg_sleep db9 1 100 30 ≠ 4 := by
  have hv : digest_sleep_values db9 1 100 30 = [8] := by decide
  have havg : digest_avg_sleep db9 1 100 30 = 8 := by
    unfold digest_avg_sleep
    rw [hv]
    norm_num
  refine ⟨hv, havg, by norm_num, ?_⟩
  rw [havg]
  norm_num

/-- C9, amended.  The digest's habit figures: the sleep and mood averages
range over exactly the in-range logs whose value is present AND non-zero
(zero values are excluded together with nulls), each average is 0 when no
such value exists, and the gym figure counts the logs with
`gym_completed = true`. -/
theorem digest_habit_figures (db : Store) (uid : Nat) (now : Timestamp)
    (days : Int) :
    digest_sleep_values db uid now days =
      (digest_daily_logs db uid now days).filterMap
        (fun l => l.sleep_hours.bind (fun x => if x = 0 then none else some x)) ∧
    digest_avg_sleep db uid now days =
      (if digest_sleep_values db uid now days = [] then 0
       else (digest_sleep_values db uid now days).sum /
         ((digest_sleep_values db uid now days).length : ℚ)) ∧
    digest_mood_values db uid now days =
      (digest_daily_logs db uid now days).filterMap
        (fun l => l.mood.bind (fun x => if x = 0 then none else some x)) ∧
    digest_avg_mood db uid now days =
      (if digest_mood_values db uid now days = [] then 0
       else ((digest_mood_values db uid now days).sum : ℚ) /
         ((digest_mood_values db uid now days).length : ℚ)) ∧
    digest_gym_days db uid now days =
      ((digest_daily_logs db uid now days).filter (fun l => l.gym_completed)).length := by
  refine ⟨truthy_rat_values (fun l : DailyLog => l.sleep_hours)
      (digest_daily_logs db uid now days), ?_,
    truthy_int_values (fun l : DailyLog => l.mood)
      (digest_daily_logs db uid now days), ?_, rfl⟩
  · by_cases h : digest_sleep_values db uid now days = []
    · simp [digest_avg_sleep, h]
    · have hemp : (digest_sleep_values db uid now days).isEmpty = false := by
        cases hv : digest_sleep_values db uid now days
        · exact absurd hv h
        · rfl
      simp [digest_avg_sleep, hemp, h]
  · by_cases h : digest_mood_values db uid now days = []
    · simp [digest_avg_mood, h]
    · have hemp : (digest_mood_values db uid now days).isEmpty = false := by
        cases hv : digest_mood_values db uid now days
        · exact absurd hv h
        · rfl
      simp [digest_avg_mood, hemp, h]

/-- C10.  `create_goal` (`app.py` lines 413-435) stores the column defaults
`progress = 0` and `status = "not-started"` for every payload — also when the
payload carries milestones already marked completed, whose flags are stored
verbatim; nothing in the creation path recomputes progress or status. -/
theorem create_goal_stores_defaults (payload : GoalCreate) (goalId : String)
    (now : Timestamp) (db : Store) :
    (create_goal payload goalId now db).2.progress = 0 ∧
    (create_goal payload goalId now db).2.status = "not-started" ∧
    (create_goal payload goalId now db).1.goals =
      db.goals ++ [(create_goal payload goalId now db).2] ∧
    (create_goal payload goalId now db).1.goal_milestones.map (fun m => m.completed) =
      db.goal_milestones.map (fun m => m.completed) ++
        payload.milestones.map (fun md => md.completed) := by
  refine ⟨rfl, rfl, rfl, ?_⟩
  unfold create_goal
  simp [List.map_append, List.map_map, Function.comp]

end SelfForge
